import Mathlib

/-!
Verification of the provider abstraction layer and the print-layout
compositor of the sketch-to-image application (src/providers.py and
src/main.py), as a shallow embedding in Lean 4.

Conventions of the embedding:
* Python strings become Lean `String`s; Python `str.strip` becomes
  `String.trim`; Python truthiness of a string is emptiness testing.
* The provider registry (a dict with insertion order) becomes an
  association list in registration order.
* Python exceptions become `Except` with one error constructor per
  distinct raise site, named after the design taxonomy.
* Images become a structure of width, height and a pixel map; the
  external resampling filter (LANCZOS) and glyph rasterization of the
  imaging library are abstracted as function parameters, while all sizes,
  coordinates and layering computed by the repository code are embedded
  exactly.
* Real-valued division in the resize computation is modelled over `ℚ`;
  Python `int()` on the nonnegative products is `Int.floor` + `Int.toNat`.
* The process environment becomes a function `String → Option String`.
-/

namespace DetskyDen

/-- Embedding of the fixed template of `ImageProvider._build_prompt`
(src/providers.py lines 40-44): the text before and after the style
insertion point. -/
def promptTemplateHead : String :=
  "Transform this child\x27s sketch/drawing into a beautiful, detailed image in "

/-- Text of the template following the style string. -/
def promptTemplateTail : String :=
  " style. Keep the main elements and composition from the sketch but make it look professionally rendered and polished."

/-- The base prompt of `ImageProvider._build_prompt` with the style
interpolated. -/
def base_prompt (style : String) : String :=
  promptTemplateHead ++ style ++ promptTemplateTail

/-- Embedding of `ImageProvider._build_prompt` (src/providers.py lines
38-47): appends the additional-instructions suffix when the optional
prompt argument is present and truthy (a non-empty string). -/
def build_prompt (style : String) (prompt : Option String) : String :=
  match prompt with
  | none => base_prompt style
  | some p => if p = "" then base_prompt style
              else base_prompt style ++ " Additional instructions: " ++ p

/-- Whitespace as recognized by Python `str.strip`. -/
def pyIsSpace (c : Char) : Bool :=
  c = ' ' || c = '\t' || c = '\n' || c = '\r' || c = '\x0b' || c = '\x0c'

/-- Embedding of Python `str.strip()`: drop whitespace characters from
both ends of the string. -/
def pyStrip (s : String) : String :=
  ⟨((s.data.dropWhile pyIsSpace).reverse.dropWhile pyIsSpace).reverse⟩

/-- Embedding of the argument `transform_sketch` (src/main.py line 73)
passes for the optional prompt: `custom_prompt if custom_prompt.strip()
else None`. -/
def customPromptArg (custom_prompt : String) : Option String :=
  if pyStrip custom_prompt = "" then none else some custom_prompt

/-- The prompt built for a generate call issued by `transform_sketch`:
the composition of the caller trimming test with `_build_prompt`. -/
def transformSketchPrompt (style : String) (custom_prompt : String) : String :=
  build_prompt style (customPromptArg custom_prompt)

/-- A provider class registered in the `PROVIDERS` registry of
src/providers.py. -/
inductive ProviderClass where
  | openai : ProviderClass
  | gemini : ProviderClass
deriving DecidableEq

/-- The `name` class attribute of each provider class. -/
def ProviderClass.name : ProviderClass → String
  | .openai => "OpenAI GPT-Image-1.5"
  | .gemini => "Gemini 3 Pro Image (Vertex AI)"

/-- The `description` class attribute of each provider class. -/
def ProviderClass.description : ProviderClass → String
  | .openai => "OpenAI\x27s latest image generation model with excellent sketch interpretation"
  | .gemini => "Google\x27s Gemini model with Nano Banana image generation via Vertex AI"

/-- Embedding of the `PROVIDERS` registry (src/providers.py lines
160-163), an insertion-ordered mapping from key to provider class. -/
def PROVIDERS : List (String × ProviderClass) :=
  [("openai", ProviderClass.openai), ("gemini", ProviderClass.gemini)]

/-- Error raised by `get_provider` for a key missing from the registry
(src/providers.py lines 177-179); the spec taxonomy names this raise
site `UnknownProviderError`. -/
inductive ProviderLookupError where
  | unknownProvider : String → ProviderLookupError
deriving DecidableEq

/-- Embedding of `get_provider` (src/providers.py lines 166-181) up to
construction: resolves the key in the registry, or fails with the
unknown-provider error whose message joins all registered keys. The
constructor call on the resolved class happens only after the membership
test succeeds, so the error path constructs nothing. -/
def get_provider (name : String) : Except ProviderLookupError ProviderClass :=
  match PROVIDERS.lookup name with
  | none =>
      let available := String.intercalate ", " (PROVIDERS.map Prod.fst)
      Except.error (ProviderLookupError.unknownProvider
        ("Unknown provider: " ++ name ++ ". Available: " ++ available))
  | some cls => Except.ok cls

/-- Embedding of `list_providers` (src/providers.py lines 184-194):
the (key, name, description) descriptors in registration order. -/
def list_providers : List (String × String × String) :=
  PROVIDERS.map (fun p => (p.1, p.2.name, p.2.description))

/-- A pixel colour of the opaque RGB canvas mode of the imaging
library. -/
structure Color where
  r : Nat
  g : Nat
  b : Nat
deriving DecidableEq

/-- The solid white background colour of the canvas. -/
def white : Color := ⟨255, 255, 255⟩

/-- The black fill colour of the drawn labels. -/
def black : Color := ⟨0, 0, 0⟩

/-- An in-memory raster image: width, height and a pixel map. -/
structure Img where
  width : Nat
  height : Nat
  pix : Nat → Nat → Color

/-- One part of a Gemini multimodal response: optional inline image
bytes and optional text. -/
structure ResponsePart where
  inline_data : Option (List Nat)
  text : Option String

/-- Failures of a generate call; the spec taxonomy distinguishes the
no-image raise site of src/providers.py line 156 from transport-level
generation failures. -/
inductive GenFailure where
  | noImageInResponse : String → GenFailure
  | generationError : String → GenFailure
deriving DecidableEq

/-- Embedding of the response-decoding loop of
`GeminiVertexProvider.generate_from_sketch` (src/providers.py lines
151-156): walk the parts of the first candidate and return the inline
data of the first part that has any, else raise. -/
def extract_image_data : List ResponsePart → Except GenFailure (List Nat)
  | [] => Except.error (GenFailure.noImageInResponse "No image was generated in the response")
  | p :: rest =>
      match p.inline_data with
      | some data => Except.ok data
      | none => extract_image_data rest

/-- The tail of `generate_from_sketch`: decode the located image bytes
into an image. The PNG decoder of the imaging library is abstracted as
the `decode` parameter. -/
def gemini_extract (decode : List Nat → Img) (parts : List ResponsePart) :
    Except GenFailure Img :=
  (extract_image_data parts).map decode

/-! Print layout compositor, embedding `create_print_layout`
(src/main.py lines 81-144). -/

/-- Page width in pixels, A4 at 150 DPI. -/
def A4_WIDTH : Nat := 1240

/-- Page height in pixels, A4 at 150 DPI. -/
def A4_HEIGHT : Nat := 1754

/-- Page margin in pixels. -/
def MARGIN : Nat := 60

/-- Vertical space reserved for each label. -/
def LABEL_HEIGHT : Nat := 50

/-- Vertical space between the two slots. -/
def SPACING : Nat := 40

/-- Available width for each image: `A4_WIDTH - 2 * MARGIN`
(src/main.py line 112). -/
def available_width : Nat := A4_WIDTH - 2 * MARGIN

/-- Available height per image with integer division (src/main.py
line 113). -/
def available_height : Nat := (A4_HEIGHT - 2 * MARGIN - 2 * LABEL_HEIGHT - SPACING) / 2

/-- The uniform scaling factor of `resize_to_fit` (src/main.py line
117): `min(max_w / img.width, max_h / img.height)`, with real division
modelled over `ℚ`. -/
def fitScale (w h max_w max_h : Nat) : ℚ :=
  min ((max_w : ℚ) / (w : ℚ)) ((max_h : ℚ) / (h : ℚ))

/-- The resized width `int(img.width * ratio)` of src/main.py line 118:
truncation of a nonnegative product is the floor. -/
def fitWidth (w h max_w max_h : Nat) : Nat :=
  (⌊(w : ℚ) * fitScale w h max_w max_h⌋).toNat

/-- The resized height `int(img.height * ratio)` of src/main.py line
118. -/
def fitHeight (w h max_w max_h : Nat) : Nat :=
  (⌊(h : ℚ) * fitScale w h max_w max_h⌋).toNat

/-- Embedding of `resize_to_fit` (src/main.py lines 115-119). The
LANCZOS resampling filter is abstracted as the `sampler` parameter
supplying the pixels of the resized image; the output dimensions are
exactly the ones the code computes. -/
def resize_to_fit (sampler : Img → Nat → Nat → Nat → Nat → Color)
    (img : Img) (max_w max_h : Nat) : Img :=
  let nw := fitWidth img.width img.height max_w max_h
  let nh := fitHeight img.width img.height max_w max_h
  ⟨nw, nh, fun x y => sampler img nw nh x y⟩

/-- Vertical offset of the top (original) image: `MARGIN + LABEL_HEIGHT`
(src/main.py line 124). -/
def orig_y : Nat := MARGIN + LABEL_HEIGHT

/-- Vertical offset of the bottom label (src/main.py line 134). -/
def gen_label_y : Nat := MARGIN + LABEL_HEIGHT + available_height + SPACING

/-- Vertical offset of the bottom (generated) image (src/main.py line
129). -/
def gen_y : Nat := MARGIN + LABEL_HEIGHT + available_height + SPACING + LABEL_HEIGHT

/-- Horizontal offset centering an image of width `imgW` in its slot:
`MARGIN + (available_width - width) // 2` (src/main.py lines 123 and
128). -/
def centered_x (imgW : Nat) : Nat := MARGIN + (available_width - imgW) / 2

/-- The resize call of src/main.py lines 122 and 127: fit an input
image into the available slot area. -/
def resize_for_slot (sampler : Img → Nat → Nat → Nat → Nat → Color) (img : Img) : Img :=
  resize_to_fit sampler img available_width available_height

/-- Embedding of `create_print_layout` (src/main.py lines 81-144) as a
pixel map. The canvas starts solid white, the two labels are drawn
(glyph rasterization of the imaging library abstracted as the `textInk`
parameter, inked pixels filled black at offsets from the text origin),
then the resized original and generated images are pasted over it at
their computed coordinates, in that order, so later layers win. -/
def create_print_layout (sampler : Img → Nat → Nat → Nat → Nat → Color)
    (textInk : String → Nat → Nat → Bool) (original generated : Img) : Img :=
  ⟨A4_WIDTH, A4_HEIGHT, fun x y =>
    if centered_x (resize_for_slot sampler generated).width ≤ x
        ∧ x < centered_x (resize_for_slot sampler generated).width
              + (resize_for_slot sampler generated).width
        ∧ gen_y ≤ y ∧ y < gen_y + (resize_for_slot sampler generated).height then
      (resize_for_slot sampler generated).pix
        (x - centered_x (resize_for_slot sampler generated).width) (y - gen_y)
    else if centered_x (resize_for_slot sampler original).width ≤ x
        ∧ x < centered_x (resize_for_slot sampler original).width
              + (resize_for_slot sampler original).width
        ∧ orig_y ≤ y ∧ y < orig_y + (resize_for_slot sampler original).height then
      (resize_for_slot sampler original).pix
        (x - centered_x (resize_for_slot sampler original).width) (y - orig_y)
    else if MARGIN ≤ x ∧ MARGIN ≤ y ∧ textInk "Originál:" (x - MARGIN) (y - MARGIN) then
      black
    else if MARGIN ≤ x ∧ gen_label_y ≤ y
        ∧ textInk "Vygenerováno:" (x - MARGIN) (y - gen_label_y) then
      black
    else white⟩

/-- The compositor failure for unusable input; the spec taxonomy names
the null-input raise sites of `print_images` (src/main.py lines
158-161) `InvalidImageError`. -/
inductive PrintError where
  | invalidImage : String → PrintError
deriving DecidableEq

/-- Embedding of the compose entry point as called for printing:
`print_images` (src/main.py lines 147-165) validates that both inputs
are present before `create_print_layout` builds the page, so a missing
input fails and no page is produced. -/
def compose_layout (sampler : Img → Nat → Nat → Nat → Nat → Color)
    (textInk : String → Nat → Nat → Bool) (original generated : Option Img) :
    Except PrintError Img :=
  match original with
  | none => Except.error (PrintError.invalidImage "Chybí originální kresba!")
  | some o =>
      match generated with
      | none => Except.error (PrintError.invalidImage "Nejprve vygeneruj obrázek!")
      | some g => Except.ok (create_print_layout sampler textInk o g)

/-! Process environment effects of provider construction
(src/providers.py lines 56-67 and 104-131). -/

/-- The process environment as a finite partial map. -/
def Env : Type := String → Option String

/-- Assignment `os.environ[k] = v`. -/
def envSet (e : Env) (k v : String) : Env :=
  fun q => if q = k then some v else e q

/-- Conditional assignment `os.environ.setdefault(k, v)`. -/
def envSetdefault (e : Env) (k v : String) : Env :=
  match e k with
  | some _ => e
  | none => envSet e k v

/-- An environment with no variables set. -/
def emptyEnv : Env := fun _ => none

/-- Embedding of the environment effect of
`GeminiVertexProvider.__init__` (src/providers.py lines 121-126): set
`GOOGLE_GENAI_USE_VERTEXAI` when absent, set `GOOGLE_CLOUD_PROJECT`
when a truthy project argument is given, set `GOOGLE_CLOUD_LOCATION`
when the location argument is truthy. -/
def gemini_init_env (project : Option String) (location : String) (e : Env) : Env :=
  let e1 := envSetdefault e "GOOGLE_GENAI_USE_VERTEXAI" "True"
  let e2 := match project with
    | some p => if p = "" then e1 else envSet e1 "GOOGLE_CLOUD_PROJECT" p
    | none => e1
  if location = "" then e2 else envSet e2 "GOOGLE_CLOUD_LOCATION" location

/-- The environment effect of a default Gemini construction, as issued
by `get_provider("gemini")` with no keyword arguments: project omitted,
location `"global"`. -/
def gemini_default_init_env (e : Env) : Env :=
  gemini_init_env none "global" e

/-- Embedding of the credential read of `OpenAIProvider.__init__`
(src/providers.py line 66): `api_key or os.environ.get("OPENAI_API_KEY")`. -/
def openai_api_key (api_key : Option String) (e : Env) : Option String :=
  match api_key with
  | some k => if k = "" then e "OPENAI_API_KEY" else some k
  | none => e "OPENAI_API_KEY"

/-- Embedding of the environment effect of `OpenAIProvider.__init__`
(src/providers.py lines 56-67): the constructor reads the environment
but never writes it. -/
def openai_init_env (_api_key : Option String) (e : Env) : Env :=
  e

/-- Containment of a point in an axis-aligned rectangle given by
origin, width and height, stated in the order the layout conditions
use. -/
abbrev inRect (x0 y0 w h x y : Nat) : Prop :=
  x0 ≤ x ∧ x < x0 + w ∧ y0 ≤ y ∧ y < y0 + h

/-- A constant resampling filter, used for concrete instantiations. -/
def constSampler : Img → Nat → Nat → Nat → Nat → Color :=
  fun _ _ _ _ _ => white

/-- A glyph rasterizer that inks nothing, used for concrete
instantiations. -/
def noInk : String → Nat → Nat → Bool :=
  fun _ _ _ => false

/-- A concrete 500 by 500 solid white image, the sketch size of the
end-to-end scenario of the spec. -/
def sketch500 : Img := ⟨500, 500, fun _ _ => white⟩

/-! Theorems. -/

set_option maxRecDepth 100000

/-- The prompt of the transform-sketch pipeline when the custom prompt
is whitespace-only. -/
theorem transformSketchPrompt_of_strip_empty (style cp : String)
    (h : pyStrip cp = "") :
    transformSketchPrompt style cp = base_prompt style := by
  unfold transformSketchPrompt customPromptArg build_prompt
  simp [h]

/-- The prompt of the transform-sketch pipeline when the custom prompt
has non-whitespace content. -/
theorem transformSketchPrompt_of_strip_ne (style cp : String)
    (h : pyStrip cp ≠ "") :
    transformSketchPrompt style cp
      = base_prompt style ++ " Additional instructions: " ++ cp := by
  have hne : cp ≠ "" := by
    intro hcp
    apply h
    rw [hcp]
    decide
  unfold transformSketchPrompt customPromptArg build_prompt
  simp [h, hne, String.append_assoc]

/-- The prompt built by the transform-sketch pipeline, characterized in
closed form: the base template, plus the additional-instructions suffix
exactly when the custom prompt is non-empty after stripping. -/
theorem transformSketchPrompt_eq (style cp : String) :
    transformSketchPrompt style cp
      = base_prompt style
        ++ (if pyStrip cp = "" then "" else " Additional instructions: " ++ cp) := by
  by_cases h : pyStrip cp = ""
  · rw [transformSketchPrompt_of_strip_empty style cp h]
    simp [h]
  · rw [transformSketchPrompt_of_strip_ne style cp h]
    simp [h, String.append_assoc]

/-- Claim C1: for every style string and instructions argument, the
prompt built for a generate call contains the style string embedded in
the fixed template, and the additional-instructions suffix is appended
exactly when the instructions are non-empty after trimming whitespace;
with no instructions the prompt contains no additional-instructions
text, and with instructions "make it blue" the prompt ends with a
suffix containing exactly that text. -/
theorem C1_prompt_construction (style cp : String) :
    (style.data <:+: (transformSketchPrompt style cp).data)
    ∧ (transformSketchPrompt style cp
        = base_prompt style
          ++ (if pyStrip cp = "" then "" else " Additional instructions: " ++ cp))
    ∧ (pyStrip cp ≠ "" ↔ transformSketchPrompt style cp
        = base_prompt style ++ " Additional instructions: " ++ cp)
    ∧ (pyStrip cp = "" → transformSketchPrompt style cp = base_prompt style)
    ∧ ¬ ("Additional instructions".data
          <:+: (transformSketchPrompt "watercolor painting" "").data)
    ∧ transformSketchPrompt style "make it blue"
        = base_prompt style ++ " Additional instructions: make it blue" := by
  refine ⟨?_, transformSketchPrompt_eq style cp, ⟨?_, ?_⟩,
    transformSketchPrompt_of_strip_empty style cp, ?_, ?_⟩
  · by_cases h : pyStrip cp = ""
    · rw [transformSketchPrompt_of_strip_empty style cp h]
      exact ⟨promptTemplateHead.data, promptTemplateTail.data, by simp [base_prompt]⟩
    · rw [transformSketchPrompt_of_strip_ne style cp h]
      refine ⟨promptTemplateHead.data,
        promptTemplateTail.data ++ (" Additional instructions: " ++ cp).data, ?_⟩
      show _ = ((promptTemplateHead ++ style ++ promptTemplateTail)
          ++ " Additional instructions: " ++ cp).data
      simp [String.append_assoc]
  · intro h
    exact transformSketchPrompt_of_strip_ne style cp h
  · intro heq htrim
    have hbase := transformSketchPrompt_of_strip_empty style cp htrim
    rw [hbase] at heq
    have hlen := congrArg String.length heq
    rw [String.length_append, String.length_append] at hlen
    have hmark : (" Additional instructions: " : String).length = 26 := by decide
    omega
  · rw [transformSketchPrompt_of_strip_empty "watercolor painting" "" (by decide)]
    decide
  · rw [transformSketchPrompt_of_strip_ne style "make it blue" (by decide),
      String.append_assoc]
    congr 1

/-- Witness for C1 at the concrete inputs of the spec scenario:
style "watercolor painting" with instructions "make it blue" carries the
additional-instructions suffix. -/
theorem C1_prompt_construction_witness :
    transformSketchPrompt "watercolor painting" "make it blue"
      = base_prompt "watercolor painting" ++ " Additional instructions: " ++ "make it blue" :=
  (C1_prompt_construction "watercolor painting" "make it blue").2.2.1.mp (by decide)

/-- The joined list of registry keys appearing in the unknown-provider
message. -/
theorem available_keys_eq :
    String.intercalate ", " (PROVIDERS.map Prod.fst) = "openai, gemini" := by
  decide

/-- Claim C2: for every key not in the registry, `get_provider` fails
with the unknown-provider error (no other outcome, and no constructor
is reached) whose message enumerates every registered key; for every
registered key it returns the class mapped to that key. -/
theorem C2_get_provider (name : String) :
    (PROVIDERS.lookup name = none →
      get_provider name
        = Except.error (ProviderLookupError.unknownProvider
            ("Unknown provider: " ++ name ++ ". Available: " ++ "openai, gemini"))
      ∧ ∀ p ∈ PROVIDERS, ∃ a b,
          ("Unknown provider: " ++ name ++ ". Available: " ++ "openai, gemini")
            = a ++ p.1 ++ b)
    ∧ (∀ cls, PROVIDERS.lookup name = some cls → get_provider name = Except.ok cls) := by
  constructor
  · intro hnone
    constructor
    · show (match PROVIDERS.lookup name with
        | none =>
            Except.error (ProviderLookupError.unknownProvider
              ("Unknown provider: " ++ name ++ ". Available: "
                ++ String.intercalate ", " (PROVIDERS.map Prod.fst)))
        | some cls => Except.ok cls) = _
      rw [hnone, available_keys_eq]
    · intro p hp
      have hp2 : p = ("openai", ProviderClass.openai)
          ∨ p = ("gemini", ProviderClass.gemini) := by
        simpa [PROVIDERS] using hp
      rcases hp2 with rfl | rfl
      · refine ⟨"Unknown provider: " ++ name ++ ". Available: ", ", gemini", ?_⟩
        rw [String.append_assoc ("Unknown provider: " ++ name ++ ". Available: ")]
        rfl
      · refine ⟨"Unknown provider: " ++ name ++ ". Available: openai, ", "", ?_⟩
        rw [String.append_empty]
        rw [String.append_assoc ("Unknown provider: " ++ name)]
        rw [String.append_assoc ("Unknown provider: " ++ name)]
        rfl
  · intro cls hsome
    show (match PROVIDERS.lookup name with
      | none =>
          Except.error (ProviderLookupError.unknownProvider
            ("Unknown provider: " ++ name ++ ". Available: "
              ++ String.intercalate ", " (PROVIDERS.map Prod.fst)))
      | some cls => Except.ok cls) = _
    rw [hsome]

/-- Witness for C2: the unregistered key "dalle" fails with the message
naming both registered keys, and the registered key "gemini" resolves
to the Gemini class. -/
theorem C2_get_provider_witness :
    get_provider "dalle"
      = Except.error (ProviderLookupError.unknownProvider
          ("Unknown provider: " ++ "dalle" ++ ". Available: openai, gemini"))
    ∧ get_provider "gemini" = Except.ok ProviderClass.gemini :=
  ⟨((C2_get_provider "dalle").1 (by decide)).1,
   (C2_get_provider "gemini").2 ProviderClass.gemini (by decide)⟩

/-- Claim C9: `list_providers` is a pure enumeration of exactly the
registered backends in registration order, and for every registered key
the provider returned by `get_provider` has the name and description of
that key in the listing. -/
theorem C9_list_providers :
    list_providers
      = [("openai", "OpenAI GPT-Image-1.5",
          "OpenAI\x27s latest image generation model with excellent sketch interpretation"),
         ("gemini", "Gemini 3 Pro Image (Vertex AI)",
          "Google\x27s Gemini model with Nano Banana image generation via Vertex AI")]
    ∧ list_providers.map Prod.fst = PROVIDERS.map Prod.fst
    ∧ (∀ key cls, PROVIDERS.lookup key = some cls →
        get_provider key = Except.ok cls
        ∧ (key, cls.name, cls.description) ∈ list_providers) := by
  refine ⟨by decide, by decide, ?_⟩
  intro key cls hsome
  by_cases h1 : key = "openai"
  · subst h1
    have h := hsome
    rw [show PROVIDERS.lookup "openai" = some ProviderClass.openai from by decide] at h
    have hcls : cls = ProviderClass.openai := (Option.some.inj h).symm
    subst hcls
    exact ⟨(C2_get_provider "openai").2 _ hsome, by decide⟩
  · by_cases h2 : key = "gemini"
    · subst h2
      have h := hsome
      rw [show PROVIDERS.lookup "gemini" = some ProviderClass.gemini from by decide] at h
      have hcls : cls = ProviderClass.gemini := (Option.some.inj h).symm
      subst hcls
      exact ⟨(C2_get_provider "gemini").2 _ hsome, by decide⟩
    · exfalso
      have h := hsome
      simp [PROVIDERS, List.lookup, beq_false_of_ne h1, beq_false_of_ne h2] at h

/-- Witness for C9: the registered key "openai" resolves to a provider
whose name and description are the ones listed for it. -/
theorem C9_list_providers_witness :
    get_provider "openai" = Except.ok ProviderClass.openai
    ∧ ("openai", ProviderClass.openai.name, ProviderClass.openai.description)
        ∈ list_providers :=
  (C9_list_providers).2.2 "openai" ProviderClass.openai (by decide)

/-- The decoding loop agrees with first-some lookup over the inline
data of the parts. -/
theorem extract_image_data_eq (parts : List ResponsePart) :
    extract_image_data parts
      = match parts.findSome? (fun p => p.inline_data) with
        | some data => Except.ok data
        | none => Except.error
            (GenFailure.noImageInResponse "No image was generated in the response") := by
  induction parts with
  | nil => rfl
  | cons p rest ih =>
      cases hp : p.inline_data with
      | none =>
          show extract_image_data (p :: rest)
            = match List.findSome? (fun p => p.inline_data) (p :: rest) with
              | some data => Except.ok data
              | none => Except.error
                  (GenFailure.noImageInResponse "No image was generated in the response")
          unfold extract_image_data
          rw [hp, List.findSome?_cons]
          rw [hp]
          exact ih
      | some d =>
          unfold extract_image_data
          rw [hp, List.findSome?_cons, hp]

/-- Claim C3: the Gemini generate decoding returns the first image part
of the response, ignoring every later part and all text; a response
with zero image parts fails with the no-image error, a constructor
distinct from the generation error. -/
theorem C3_gemini_first_image_part (parts : List ResponsePart) :
    (extract_image_data parts
      = match parts.findSome? (fun p => p.inline_data) with
        | some data => Except.ok data
        | none => Except.error
            (GenFailure.noImageInResponse "No image was generated in the response"))
    ∧ ((∀ p ∈ parts, p.inline_data = none) →
        extract_image_data parts
          = Except.error
              (GenFailure.noImageInResponse "No image was generated in the response"))
    ∧ (∀ f : ResponsePart → Option String,
        extract_image_data (parts.map (fun p => ⟨p.inline_data, f p⟩))
          = extract_image_data parts)
    ∧ (∀ data rest, extract_image_data ({ inline_data := some data, text := none } :: rest)
        = Except.ok data)
    ∧ (∀ decode data rest,
        gemini_extract decode ({ inline_data := some data, text := none } :: rest)
          = Except.ok (decode data))
    ∧ (∀ m1 m2, GenFailure.noImageInResponse m1 ≠ GenFailure.generationError m2) := by
  refine ⟨extract_image_data_eq parts, ?_, ?_, ?_, ?_, ?_⟩
  · intro hall
    rw [extract_image_data_eq parts]
    have hnone : parts.findSome? (fun p => p.inline_data) = none := by
      rw [List.findSome?_eq_none_iff]
      exact hall
    rw [hnone]
  · intro f
    induction parts with
    | nil => rfl
    | cons p rest ih =>
        show extract_image_data
            ({ inline_data := p.inline_data, text := f p } :: rest.map _) = _
        unfold extract_image_data
        cases hp : p.inline_data with
        | none => exact ih
        | some d => rfl
  · intro data rest
    rfl
  · intro decode data rest
    rfl
  · intro m1 m2 h
    exact GenFailure.noConfusion h

/-- Witness for C3: a response whose single part is text-only fails
with the no-image error. -/
theorem C3_gemini_first_image_part_witness :
    extract_image_data [{ inline_data := none, text := some "some text" }]
      = Except.error
          (GenFailure.noImageInResponse "No image was generated in the response") :=
  (C3_gemini_first_image_part
      [{ inline_data := none, text := some "some text" }]).2.1 (by decide)

/-- The scaling factor is nonnegative. -/
theorem fitScale_nonneg (w h mw mh : Nat) : 0 ≤ fitScale w h mw mh := by
  unfold fitScale
  exact le_min (by positivity) (by positivity)

/-- The resized width never exceeds the available width. -/
theorem fitWidth_le (w h mw mh : Nat) (hw : 0 < w) : fitWidth w h mw mh ≤ mw := by
  unfold fitWidth
  have hwq : (0 : ℚ) < (w : ℚ) := by exact_mod_cast hw
  have h1 : (w : ℚ) * fitScale w h mw mh ≤ (mw : ℚ) := by
    calc (w : ℚ) * fitScale w h mw mh
        ≤ (w : ℚ) * ((mw : ℚ) / (w : ℚ)) :=
          mul_le_mul_of_nonneg_left (min_le_left _ _) (le_of_lt hwq)
      _ = (mw : ℚ) := by field_simp
  have h3 : ⌊(w : ℚ) * fitScale w h mw mh⌋ ≤ (mw : ℤ) := by
    have h2 := Int.floor_mono h1
    rwa [Int.floor_natCast] at h2
  exact Int.toNat_le.mpr h3

/-- The resized height never exceeds the available height. -/
theorem fitHeight_le (w h mw mh : Nat) (hh : 0 < h) : fitHeight w h mw mh ≤ mh := by
  unfold fitHeight
  have hhq : (0 : ℚ) < (h : ℚ) := by exact_mod_cast hh
  have h1 : (h : ℚ) * fitScale w h mw mh ≤ (mh : ℚ) := by
    calc (h : ℚ) * fitScale w h mw mh
        ≤ (h : ℚ) * ((mh : ℚ) / (h : ℚ)) :=
          mul_le_mul_of_nonneg_left (min_le_right _ _) (le_of_lt hhq)
      _ = (mh : ℚ) := by field_simp
  have h3 : ⌊(h : ℚ) * fitScale w h mw mh⌋ ≤ (mh : ℤ) := by
    have h2 := Int.floor_mono h1
    rwa [Int.floor_natCast] at h2
  exact Int.toNat_le.mpr h3

/-- The width bound holds for every input, a degenerate zero width
resizing to zero. -/
theorem fitWidth_le_all (w h mw mh : Nat) : fitWidth w h mw mh ≤ mw := by
  rcases Nat.eq_zero_or_pos w with h0 | hpos
  · subst h0
    unfold fitWidth
    simp
  · exact fitWidth_le w h mw mh hpos

/-- The height bound holds for every input. -/
theorem fitHeight_le_all (w h mw mh : Nat) : fitHeight w h mw mh ≤ mh := by
  rcases Nat.eq_zero_or_pos h with h0 | hpos
  · subst h0
    unfold fitHeight
    simp
  · exact fitHeight_le w h mw mh hpos

/-- Aspect preservation within rounding tolerance: the cross products
of the resized and original dimensions differ by at most one rounding
step per axis. -/
theorem fit_aspect (w h mw mh : Nat) :
    ((fitWidth w h mw mh : ℤ) * (h : ℤ) - (fitHeight w h mw mh : ℤ) * (w : ℤ)).natAbs
      ≤ max w h := by
  have hρ0 : 0 ≤ fitScale w h mw mh := fitScale_nonneg w h mw mh
  have hx0 : (0 : ℚ) ≤ (w : ℚ) * fitScale w h mw mh := by positivity
  have hy0 : (0 : ℚ) ≤ (h : ℚ) * fitScale w h mw mh := by positivity
  have hnw : ((fitWidth w h mw mh : Nat) : ℤ) = ⌊(w : ℚ) * fitScale w h mw mh⌋ := by
    unfold fitWidth
    exact Int.toNat_of_nonneg (Int.floor_nonneg.mpr hx0)
  have hnh : ((fitHeight w h mw mh : Nat) : ℤ) = ⌊(h : ℚ) * fitScale w h mw mh⌋ := by
    unfold fitHeight
    exact Int.toNat_of_nonneg (Int.floor_nonneg.mpr hy0)
  rw [hnw, hnh]
  have hub : ⌊(w : ℚ) * fitScale w h mw mh⌋ * (h : ℤ)
      - ⌊(h : ℚ) * fitScale w h mw mh⌋ * (w : ℤ) ≤ (w : ℤ) := by
    have l1 : ((⌊(w : ℚ) * fitScale w h mw mh⌋ : ℚ)) * (h : ℚ)
        ≤ ((w : ℚ) * fitScale w h mw mh) * (h : ℚ) :=
      mul_le_mul_of_nonneg_right (Int.floor_le _) (by positivity)
    have l2 : ((h : ℚ) * fitScale w h mw mh - 1) * (w : ℚ)
        ≤ ((⌊(h : ℚ) * fitScale w h mw mh⌋ : ℚ)) * (w : ℚ) :=
      mul_le_mul_of_nonneg_right (le_of_lt (Int.sub_one_lt_floor _)) (by positivity)
    have l3 : ((⌊(w : ℚ) * fitScale w h mw mh⌋ : ℚ)) * (h : ℚ)
        - ((⌊(h : ℚ) * fitScale w h mw mh⌋ : ℚ)) * (w : ℚ)
        ≤ ((w : ℚ) * fitScale w h mw mh) * (h : ℚ)
          - ((h : ℚ) * fitScale w h mw mh - 1) * (w : ℚ) := sub_le_sub l1 l2
    have l4 : ((w : ℚ) * fitScale w h mw mh) * (h : ℚ)
        - ((h : ℚ) * fitScale w h mw mh - 1) * (w : ℚ) = (w : ℚ) := by ring
    rw [l4] at l3
    exact_mod_cast l3
  have hlb : -(h : ℤ) ≤ ⌊(w : ℚ) * fitScale w h mw mh⌋ * (h : ℤ)
      - ⌊(h : ℚ) * fitScale w h mw mh⌋ * (w : ℤ) := by
    have l1 : ((w : ℚ) * fitScale w h mw mh - 1) * (h : ℚ)
        ≤ ((⌊(w : ℚ) * fitScale w h mw mh⌋ : ℚ)) * (h : ℚ) :=
      mul_le_mul_of_nonneg_right (le_of_lt (Int.sub_one_lt_floor _)) (by positivity)
    have l2 : ((⌊(h : ℚ) * fitScale w h mw mh⌋ : ℚ)) * (w : ℚ)
        ≤ ((h : ℚ) * fitScale w h mw mh) * (w : ℚ) :=
      mul_le_mul_of_nonneg_right (Int.floor_le _) (by positivity)
    have l3 : ((w : ℚ) * fitScale w h mw mh - 1) * (h : ℚ)
        - ((h : ℚ) * fitScale w h mw mh) * (w : ℚ)
        ≤ ((⌊(w : ℚ) * fitScale w h mw mh⌋ : ℚ)) * (h : ℚ)
          - ((⌊(h : ℚ) * fitScale w h mw mh⌋ : ℚ)) * (w : ℚ) := sub_le_sub l1 l2
    have l4 : ((w : ℚ) * fitScale w h mw mh - 1) * (h : ℚ)
        - ((h : ℚ) * fitScale w h mw mh) * (w : ℚ) = -(h : ℚ) := by ring
    rw [l4] at l3
    exact_mod_cast l3
  have hwmax : (w : ℤ) ≤ ((max w h : Nat) : ℤ) := by exact_mod_cast le_max_left w h
  have hhmax : (h : ℤ) ≤ ((max w h : Nat) : ℤ) := by exact_mod_cast le_max_right w h
  have habs : |⌊(w : ℚ) * fitScale w h mw mh⌋ * (h : ℤ)
      - ⌊(h : ℚ) * fitScale w h mw mh⌋ * (w : ℤ)| ≤ ((max w h : Nat) : ℤ) := by
    rw [abs_le]
    constructor
    · linarith
    · linarith
  rw [Int.abs_eq_natAbs] at habs
  exact_mod_cast habs

/-- Claim C4: each image is scaled by the single uniform ratio of the
slot dimensions computed from the page constants, the resized
dimensions fit the slot, the aspect ratio is preserved within rounding
tolerance, and the image is centered horizontally within its slot. -/
theorem C4_resize_geometry (sampler : Img → Nat → Nat → Nat → Nat → Color) (img : Img)
    (hw : 0 < img.width) (hh : 0 < img.height) :
    available_width = A4_WIDTH - 2 * MARGIN
    ∧ available_height = (A4_HEIGHT - 2 * MARGIN - 2 * LABEL_HEIGHT - SPACING) / 2
    ∧ (resize_for_slot sampler img).width ≤ available_width
    ∧ (resize_for_slot sampler img).height ≤ available_height
    ∧ (((resize_for_slot sampler img).width : ℤ) * (img.height : ℤ)
        - ((resize_for_slot sampler img).height : ℤ) * (img.width : ℤ)).natAbs
        ≤ max img.width img.height
    ∧ MARGIN ≤ centered_x (resize_for_slot sampler img).width
    ∧ centered_x (resize_for_slot sampler img).width + (resize_for_slot sampler img).width
        ≤ MARGIN + available_width
    ∧ centered_x (resize_for_slot sampler img).width - MARGIN
        ≤ MARGIN + available_width
          - (centered_x (resize_for_slot sampler img).width
              + (resize_for_slot sampler img).width)
    ∧ MARGIN + available_width
          - (centered_x (resize_for_slot sampler img).width
              + (resize_for_slot sampler img).width)
        ≤ (centered_x (resize_for_slot sampler img).width - MARGIN) + 1 := by
  have hW : (resize_for_slot sampler img).width
      = fitWidth img.width img.height available_width available_height := rfl
  have hH : (resize_for_slot sampler img).height
      = fitHeight img.width img.height available_width available_height := rfl
  have hWle : (resize_for_slot sampler img).width ≤ available_width := by
    rw [hW]
    exact fitWidth_le img.width img.height available_width available_height hw
  have hHle : (resize_for_slot sampler img).height ≤ available_height := by
    rw [hH]
    exact fitHeight_le img.width img.height available_width available_height hh
  have hcx : centered_x (resize_for_slot sampler img).width
      = MARGIN + (available_width - (resize_for_slot sampler img).width) / 2 := rfl
  refine ⟨rfl, rfl, hWle, hHle, ?_, ?_, ?_, ?_, ?_⟩
  · rw [hW, hH]
    exact fit_aspect img.width img.height available_width available_height
  · rw [hcx]
    omega
  · rw [hcx]
    omega
  · rw [hcx]
    omega
  · rw [hcx]
    omega

/-- Witness for C4 at the 500 by 500 sketch of the spec scenario. -/
theorem C4_resize_geometry_witness :
    0 < sketch500.width ∧ 0 < sketch500.height
    ∧ ((resize_for_slot constSampler sketch500).width ≤ available_width
        ∧ (resize_for_slot constSampler sketch500).height ≤ available_height) :=
  ⟨by decide, by decide,
   ⟨(C4_resize_geometry constSampler sketch500 (by decide) (by decide)).2.2.1,
    (C4_resize_geometry constSampler sketch500 (by decide) (by decide)).2.2.2.1⟩⟩

/-- Claim C5: the two slots have equal height, the bottom slot starts
no earlier than the top slot bottom edge plus the spacing, and both
slots with their labels lie within the page bounds. -/
theorem C5_slot_geometry :
    (orig_y + available_height) - MARGIN = (gen_y + available_height) - gen_label_y
    ∧ orig_y + available_height + SPACING ≤ gen_label_y
    ∧ orig_y = MARGIN + LABEL_HEIGHT
    ∧ gen_y = gen_label_y + LABEL_HEIGHT
    ∧ MARGIN + available_width ≤ A4_WIDTH
    ∧ gen_y + available_height ≤ A4_HEIGHT - MARGIN
    ∧ A4_HEIGHT - MARGIN ≤ A4_HEIGHT := by
  decide

/-- Claim C6: composing with a missing original or a missing generated
image fails with the invalid-image error, and a page is only ever
returned complete, as the full-size canvas of both present inputs. -/
theorem C6_compose_null_inputs (sampler : Img → Nat → Nat → Nat → Nat → Color)
    (textInk : String → Nat → Nat → Bool) :
    (∀ generated, compose_layout sampler textInk none generated
      = Except.error (PrintError.invalidImage "Chybí originální kresba!"))
    ∧ (∀ original, compose_layout sampler textInk (some original) none
      = Except.error (PrintError.invalidImage "Nejprve vygeneruj obrázek!"))
    ∧ (∀ original generated,
        compose_layout sampler textInk (some original) (some generated)
          = Except.ok (create_print_layout sampler textInk original generated)
        ∧ (create_print_layout sampler textInk original generated).width = A4_WIDTH
        ∧ (create_print_layout sampler textInk original generated).height = A4_HEIGHT) :=
  ⟨fun _ => rfl, fun _ => rfl, fun _ _ => ⟨rfl, rfl, rfl⟩⟩

/-- Claim C7: the compositor is deterministic, equal inputs give equal
pages, pixel for pixel; the embedding is a pure function of its inputs,
so no randomness enters the computation. -/
theorem C7_compose_deterministic (sampler : Img → Nat → Nat → Nat → Nat → Color)
    (textInk : String → Nat → Nat → Bool) (o g o2 g2 : Img)
    (ho : o = o2) (hg : g = g2) :
    create_print_layout sampler textInk o g = create_print_layout sampler textInk o2 g2
    ∧ ∀ x y, (create_print_layout sampler textInk o g).pix x y
        = (create_print_layout sampler textInk o2 g2).pix x y := by
  subst ho
  subst hg
  exact ⟨rfl, fun _ _ => rfl⟩

/-- Witness for C7: two compositions of the same concrete inputs agree. -/
theorem C7_compose_deterministic_witness :
    create_print_layout constSampler noInk sketch500 sketch500
      = create_print_layout constSampler noInk sketch500 sketch500
    ∧ ∀ x y, (create_print_layout constSampler noInk sketch500 sketch500).pix x y
        = (create_print_layout constSampler noInk sketch500 sketch500).pix x y :=
  C7_compose_deterministic constSampler noInk sketch500 sketch500 sketch500 sketch500
    rfl rfl

/-- Claim C8: the composed page is exactly 1240 by 1754 in the opaque
RGB pixel model, is solid white wherever no pasted image and no label
ink covers it, and carries the resized original in the top slot and the
resized generated image in the bottom slot at the expected offsets. -/
theorem C8_page_contents (sampler : Img → Nat → Nat → Nat → Nat → Color)
    (textInk : String → Nat → Nat → Bool) (o g : Img) :
    (create_print_layout sampler textInk o g).width = 1240
    ∧ (create_print_layout sampler textInk o g).height = 1754
    ∧ MARGIN = 60 ∧ orig_y = 110 ∧ gen_label_y = 897 ∧ gen_y = 947
    ∧ (∀ x y,
        ¬ inRect (centered_x (resize_for_slot sampler g).width) gen_y
            (resize_for_slot sampler g).width (resize_for_slot sampler g).height x y →
        ¬ inRect (centered_x (resize_for_slot sampler o).width) orig_y
            (resize_for_slot sampler o).width (resize_for_slot sampler o).height x y →
        ¬ (MARGIN ≤ x ∧ MARGIN ≤ y
            ∧ textInk "Originál:" (x - MARGIN) (y - MARGIN) = true) →
        ¬ (MARGIN ≤ x ∧ gen_label_y ≤ y
            ∧ textInk "Vygenerováno:" (x - MARGIN) (y - gen_label_y) = true) →
        (create_print_layout sampler textInk o g).pix x y = white)
    ∧ (∀ i j, i < (resize_for_slot sampler o).width →
        j < (resize_for_slot sampler o).height →
        (create_print_layout sampler textInk o g).pix
            (centered_x (resize_for_slot sampler o).width + i) (orig_y + j)
          = (resize_for_slot sampler o).pix i j)
    ∧ (∀ i j, i < (resize_for_slot sampler g).width →
        j < (resize_for_slot sampler g).height →
        (create_print_layout sampler textInk o g).pix
            (centered_x (resize_for_slot sampler g).width + i) (gen_y + j)
          = (resize_for_slot sampler g).pix i j) := by
  refine ⟨rfl, rfl, rfl, by decide, by decide, by decide, ?_, ?_, ?_⟩
  · intro x y hg1 ho1 hl1 hl2
    unfold create_print_layout
    dsimp only
    rw [if_neg hg1, if_neg ho1, if_neg hl1, if_neg hl2]
  · intro i j hi hj
    have hHo : (resize_for_slot sampler o).height ≤ available_height :=
      fitHeight_le_all o.width o.height available_width available_height
    have hnum : orig_y + available_height < gen_y := by decide
    have hgneg : ¬ (centered_x (resize_for_slot sampler g).width
          ≤ centered_x (resize_for_slot sampler o).width + i
        ∧ centered_x (resize_for_slot sampler o).width + i
            < centered_x (resize_for_slot sampler g).width
                + (resize_for_slot sampler g).width
        ∧ gen_y ≤ orig_y + j
        ∧ orig_y + j < gen_y + (resize_for_slot sampler g).height) := by
      intro hc
      have h1 := hc.2.2.1
      omega
    unfold create_print_layout
    dsimp only
    rw [if_neg hgneg,
      if_pos ⟨Nat.le_add_right _ _, Nat.add_lt_add_left hi _,
        Nat.le_add_right _ _, Nat.add_lt_add_left hj _⟩,
      Nat.add_sub_cancel_left, Nat.add_sub_cancel_left]
  · intro i j hi hj
    unfold create_print_layout
    dsimp only
    rw [if_pos ⟨Nat.le_add_right _ _, Nat.add_lt_add_left hi _,
        Nat.le_add_right _ _, Nat.add_lt_add_left hj _⟩,
      Nat.add_sub_cancel_left, Nat.add_sub_cancel_left]

/-- Witness for C8: the page corner pixel, outside both slots and both
labels, is white. -/
theorem C8_page_contents_witness :
    (create_print_layout constSampler noInk sketch500 sketch500).pix 0 0 = white :=
  (C8_page_contents constSampler noInk sketch500 sketch500).2.2.2.2.2.2.1 0 0
    (fun hc => absurd hc.2.2.1 (by decide))
    (fun hc => absurd hc.2.2.1 (by decide))
    (fun hc => absurd hc.1 (by decide))
    (fun hc => absurd hc.1 (by decide))

/-- Writing a different key leaves a variable unchanged. -/
theorem envSet_other (e : Env) (k0 v k : String) (hk : k ≠ k0) :
    envSet e k0 v k = e k := by
  unfold envSet
  simp [hk]

/-- Conditionally writing a different key leaves a variable
unchanged. -/
theorem envSetdefault_other (e : Env) (k0 v k : String) (hk : k ≠ k0) :
    envSetdefault e k0 v k = e k := by
  unfold envSetdefault
  cases e k0 with
  | none => exact envSet_other e k0 v k hk
  | some w => rfl

/-- Counterexample to claim C10 as stated: the default Gemini provider
construction changes the process environment, here starting from an
empty environment. -/
theorem C10_gemini_init_changes_env :
    gemini_default_init_env emptyEnv ≠ emptyEnv := by
  intro h
  have h2 := congrFun h "GOOGLE_CLOUD_LOCATION"
  rw [show gemini_default_init_env emptyEnv "GOOGLE_CLOUD_LOCATION"
      = some "global" from by decide] at h2
  exact Option.noConfusion h2

/-- Claim C10 as amended: the OpenAI constructor reads the API key from
the environment when none is supplied and never writes the environment;
the Gemini constructor writes only the three Google configuration
variables, leaving every other variable unchanged, and the default
construction sets the Vertex flag and the location; generate calls take
no environment at all in this embedding, so they revisit nothing. -/
theorem C10_env_effects (e : Env) (api_key project : Option String)
    (location k : String)
    (h1 : k ≠ "GOOGLE_GENAI_USE_VERTEXAI")
    (h2 : k ≠ "GOOGLE_CLOUD_PROJECT")
    (h3 : k ≠ "GOOGLE_CLOUD_LOCATION") :
    openai_init_env api_key e = e
    ∧ openai_api_key none e = e "OPENAI_API_KEY"
    ∧ gemini_init_env project location e k = e k
    ∧ gemini_default_init_env emptyEnv "GOOGLE_GENAI_USE_VERTEXAI" = some "True"
    ∧ gemini_default_init_env emptyEnv "GOOGLE_CLOUD_LOCATION" = some "global"
    ∧ gemini_default_init_env emptyEnv "GOOGLE_CLOUD_PROJECT" = none := by
  refine ⟨rfl, rfl, ?_, by decide, by decide, by decide⟩
  unfold gemini_init_env
  by_cases hloc : location = ""
  · rw [if_pos hloc]
    cases project with
    | none => exact envSetdefault_other e _ _ k h1
    | some p =>
        dsimp only
        by_cases hp : p = ""
        · rw [if_pos hp]
          exact envSetdefault_other e _ _ k h1
        · rw [if_neg hp]
          rw [envSet_other _ _ _ k h2]
          exact envSetdefault_other e _ _ k h1
  · rw [if_neg hloc]
    rw [envSet_other _ _ _ k h3]
    cases project with
    | none => exact envSetdefault_other e _ _ k h1
    | some p =>
        dsimp only
        by_cases hp : p = ""
        · rw [if_pos hp]
          exact envSetdefault_other e _ _ k h1
        · rw [if_neg hp]
          rw [envSet_other _ _ _ k h2]
          exact envSetdefault_other e _ _ k h1

/-- Witness for the amended C10 at a concrete unrelated variable. -/
theorem C10_env_effects_witness :
    openai_init_env none emptyEnv = emptyEnv
    ∧ gemini_init_env none "global" emptyEnv "PATH" = emptyEnv "PATH" :=
  ⟨(C10_env_effects emptyEnv none none "global" "PATH"
      (by decide) (by decide) (by decide)).1,
   (C10_env_effects emptyEnv none none "global" "PATH"
      (by decide) (by decide) (by decide)).2.2.1⟩

end DetskyDen
